import Mathlib

/-!
Verification of the request-forwarding gateway (the Next.js catch-all route
handler in app/api/v1/[[...path]]/route.ts).

The handler is embedded shallowly: machine effects (reading the inbound body
stream, the outbound fetch, reading the backend response body) are oracles
passed as function arguments returning Except values, where the error carries
the thrown value; everything else is the pure computation the route performs.
JavaScript truthiness of strings (the || operator on string-or-null values)
is modelled explicitly: null/undefined and the empty string are falsy.
-/

namespace GatewayModel

/-- A value thrown by the runtime inside the try block: either a JS Error
carrying a message, or any non-Error thrown value. -/
inductive Thrown where
  | jsError (msg : String)
  | nonError
  deriving DecidableEq, Repr

/-- The message the catch block extracts: error instanceof Error ? error.message : the
fixed text Unknown error. -/
def thrownMessage : Thrown → String
  | .jsError m => m
  | .nonError => "Unknown error"

/-- JavaScript x || d for x a string-or-null value: null/undefined and the
empty string are falsy and select the default. -/
def jsOr : Option String → String → String
  | none, d => d
  | some s, d => if s = "" then d else s

/-- JavaScript s || d for s a plain string. -/
def jsOrStr (s d : String) : String :=
  if s = "" then d else s

/-- JavaScript toLowerCase over the ASCII header names: lowercase each
character of the string. -/
def lowerStr (s : String) : String :=
  ⟨s.data.map Char.toLower⟩

/-- BACKEND_URL resolution: process.env.BACKEND_API_URL ||
process.env.NEXT_PUBLIC_API_URL || the literal http://localhost:8000.
An environment variable is an Option String: none when unset. -/
def resolveBackendUrl (backendApiUrl nextPublicApiUrl : Option String) : String :=
  jsOr backendApiUrl (jsOr nextPublicApiUrl "http://localhost:8000")

/-- The skipHeaders set of getForwardHeaders. -/
def skipHeaders : List String :=
  ["host", "connection", "keep-alive", "transfer-encoding", "upgrade", "content-length"]

/-- JavaScript object property assignment headers[key] = value on an object
represented as an association list in insertion order: replace the value of an
existing key, otherwise append the pair. -/
def objSet (acc : List (String × String)) (k v : String) : List (String × String) :=
  if acc.any (fun p => p.1 == k) then
    acc.map (fun p => if p.1 == k then (k, v) else p)
  else acc ++ [(k, v)]

/-- getForwardHeaders: iterate the inbound headers and copy every pair whose
lowercased name is not in skipHeaders into a fresh object. -/
def getForwardHeaders (hs : List (String × String)) : List (String × String) :=
  hs.foldl (fun acc p => if lowerStr p.1 ∈ skipHeaders then acc else objSet acc p.1 p.2) []

/-- The inbound request as the handler observes it: the method string, the
optional catch-all path segments (params.path), the query parameters in order
with duplicates, the header pairs as Headers.forEach yields them, and the
optional body stream whose reading yields bytes or throws. -/
structure InboundRequest where
  method : String
  pathSegments : Option (List String)
  query : List (String × String)
  headers : List (String × String)
  body : Option (Except Thrown (List Nat))

/-- The outbound request handed to fetch: the URL before the query string,
the appended query parameters, the method, headers and optional body. -/
structure OutboundRequest where
  url : String
  query : List (String × String)
  method : String
  headers : List (String × String)
  body : Option (List Nat)
  deriving DecidableEq, Repr

/-- The backend response metadata fetch resolves with (its body is read by a
separate awaited call, modelled as its own oracle). -/
structure BackendResponse where
  status : Nat
  statusText : String
  headers : List (String × String)
  deriving DecidableEq, Repr

/-- Headers.get: the value of the first pair whose name matches
case-insensitively, or null. -/
def headersGet (hs : List (String × String)) (name : String) : Option String :=
  (hs.find? (fun p => lowerStr p.1 == lowerStr name)).map Prod.snd

/-- The body of a response the gateway returns: empty (the OPTIONS branch),
raw relayed bytes, or the 502 JSON envelope with its exactly three fields. -/
inductive ResponseBody where
  | empty
  | bytes (bs : List Nat)
  | json502 (error message backendUrl : String)
  deriving DecidableEq, Repr

/-- A response the gateway returns to the original caller. -/
structure GatewayResponse where
  status : Nat
  statusText : String
  headers : List (String × String)
  body : ResponseBody
  deriving DecidableEq, Repr

/-- The path part: params.path?.join(slash) || the empty string. -/
def joinedPath (req : InboundRequest) : String :=
  match req.pathSegments with
  | none => ""
  | some segs => jsOrStr (String.intercalate "/" segs) ""

/-- The outbound request the handler builds: the template origin/api/v1/path,
the inbound query parameters appended one by one in order, the inbound method,
the filtered headers, and the body computed beforehand. -/
def buildOutbound (origin : String) (req : InboundRequest) (outBody : Option (List Nat)) :
    OutboundRequest :=
  { url := origin ++ "/api/v1/" ++ joinedPath req
    query := req.query.foldl (fun acc p => acc ++ [p]) []
    method := req.method
    headers := getForwardHeaders req.headers
    body := outBody }

/-- The body-forwarding step: for GET and HEAD, or when no body stream is
present, no body is read; otherwise the stream is read to completion (which
may throw) and a zero-length payload is dropped. -/
def readOutBody (req : InboundRequest) : Except Thrown (Option (List Nat)) :=
  if req.method = "GET" ∨ req.method = "HEAD" then .ok none
  else
    match req.body with
    | none => .ok none
    | some (.error t) => .error t
    | some (.ok bs) => .ok (if bs.length > 0 then some bs else none)

/-- The catch branch: NextResponse.json of the three-field envelope with
status 502. -/
def errorResponse (origin : String) (t : Thrown) : GatewayResponse :=
  { status := 502
    statusText := ""
    headers := [("Content-Type", "application/json")]
    body := .json502 "Backend connection failed" (thrownMessage t) origin }

/-- The headers of a relayed backend response: Content-Type and Cache-Control
copied through the || defaults, then the three fixed CORS headers. -/
def relayedHeaders (b : BackendResponse) : List (String × String) :=
  [ ("Content-Type", jsOr (headersGet b.headers "Content-Type") "application/json")
  , ("Cache-Control", jsOr (headersGet b.headers "Cache-Control") "no-store")
  , ("Access-Control-Allow-Origin", "*")
  , ("Access-Control-Allow-Methods", "GET, POST, PUT, DELETE, OPTIONS")
  , ("Access-Control-Allow-Headers", "Content-Type, Authorization") ]

/-- The handler function shared by the non-OPTIONS method exports. The two
oracles stand for the awaited machine effects inside the try block: the
outbound fetch and the reading of the backend response body; the reading of
the inbound body stream lives inside the request value. Any thrown value is
caught and mapped to the 502 envelope. -/
def handler (origin : String)
    (fetchBackend : OutboundRequest → Except Thrown BackendResponse)
    (readResponseBody : BackendResponse → Except Thrown (List Nat))
    (req : InboundRequest) : GatewayResponse :=
  match readOutBody req with
  | .error t => errorResponse origin t
  | .ok ob =>
    match fetchBackend (buildOutbound origin req ob) with
    | .error t => errorResponse origin t
    | .ok b =>
      match readResponseBody b with
      | .error t => errorResponse origin t
      | .ok bs =>
        { status := b.status
          statusText := b.statusText
          headers := relayedHeaders b
          body := .bytes bs }

/-- The OPTIONS export: a constant 204 response, no body, the CORS headers
with PATCH added to the allowed methods, and Access-Control-Max-Age 86400. -/
def optionsResponse : GatewayResponse :=
  { status := 204
    statusText := ""
    headers :=
      [ ("Access-Control-Allow-Origin", "*")
      , ("Access-Control-Allow-Methods", "GET, POST, PUT, DELETE, PATCH, OPTIONS")
      , ("Access-Control-Allow-Headers", "Content-Type, Authorization")
      , ("Access-Control-Max-Age", "86400") ]
    body := .empty }

/-- The methods the route file exports handlers for. -/
def exportedMethods : List String :=
  ["GET", "POST", "PUT", "DELETE", "PATCH", "OPTIONS"]

/-- Modelled from the spec: the hosting framework's method dispatch, which is
not part of the route file. The file exports handlers for GET, POST, PUT,
DELETE, PATCH and OPTIONS; the spec's inbound surface additionally lists HEAD,
which the framework serves through the GET export when no HEAD export exists,
leaving the request's own method string intact. OPTIONS goes to its dedicated
export and never consults the backend oracles. -/
def route (origin : String)
    (fetchBackend : OutboundRequest → Except Thrown BackendResponse)
    (readResponseBody : BackendResponse → Except Thrown (List Nat))
    (req : InboundRequest) : Option GatewayResponse :=
  if req.method = "OPTIONS" then some optionsResponse
  else if req.method ∈ exportedMethods ∨ req.method = "HEAD" then
    some (handler origin fetchBackend readResponseBody req)
  else none

/-! Concrete sample values used to instantiate the theorems. -/

/-- A sample GET request with no body. -/
def sampleGetRequest : InboundRequest :=
  { method := "GET", pathSegments := some ["linguistic", "stats"]
    query := [], headers := [("accept", "application/json")], body := none }

/-- A sample POST request with a two-byte body. -/
def samplePostRequest : InboundRequest :=
  { method := "POST", pathSegments := some ["texts"]
    query := [], headers := [], body := some (.ok [104, 105]) }

/-- A sample HEAD request. -/
def sampleHeadRequest : InboundRequest :=
  { method := "HEAD", pathSegments := some ["texts"]
    query := [], headers := [], body := some (.ok [7]) }

/-- A sample POST request whose body stream throws when read. -/
def throwingBodyRequest : InboundRequest :=
  { method := "POST", pathSegments := some ["upload"]
    query := [], headers := [], body := some (.error (.jsError "body stream aborted")) }

/-- A sample backend response. -/
def sampleBackendOk : BackendResponse :=
  { status := 200, statusText := "OK", headers := [] }

/-- A fetch oracle that always throws a non-Error value. -/
def throwingNonErrorFetch : OutboundRequest → Except Thrown BackendResponse :=
  fun _ => .error .nonError

/-- A fetch oracle that always throws a connection error. -/
def failingFetch : OutboundRequest → Except Thrown BackendResponse :=
  fun _ => .error (.jsError "connect ECONNREFUSED")

/-- A fetch oracle that always resolves with the given response. -/
def okFetch (b : BackendResponse) : OutboundRequest → Except Thrown BackendResponse :=
  fun _ => .ok b

/-- A response-body oracle that always resolves with the given bytes. -/
def okRead (bs : List Nat) : BackendResponse → Except Thrown (List Nat) :=
  fun _ => .ok bs

/-! Helper lemmas. -/

/-- Appending elements one by one with foldl reproduces the list. -/
lemma foldl_push (l acc : List (String × String)) :
    l.foldl (fun a p => a ++ [p]) acc = acc ++ l := by
  induction l generalizing acc with
  | nil => simp
  | cons x t ih =>
    rw [List.foldl_cons, ih]
    simp

/-- The empty string is the identity default of jsOrStr. -/
lemma jsOrStr_empty (s : String) : jsOrStr s "" = s := by
  by_cases h : s = "" <;> simp [jsOrStr, h]

/-- Assigning a key that is absent from the object appends the pair. -/
lemma objSet_append (acc : List (String × String)) (k v : String)
    (h : ∀ q ∈ acc, q.1 ≠ k) : objSet acc k v = acc ++ [(k, v)] := by
  have hfalse : ¬ (acc.any (fun p => p.1 == k) = true) := by
    simp only [List.any_eq_true, beq_iff_eq]
    rintro ⟨q, hq, he⟩
    exact h q hq he
  simp [objSet, hfalse]

/-- The fold of getForwardHeaders, generalized over the accumulator: when the
inbound names are distinct and disjoint from the accumulator, it appends
exactly the pairs whose lowercased name avoids the denylist. -/
lemma getForwardHeaders_go (hs : List (String × String)) :
    ∀ acc : List (String × String),
    (∀ p ∈ hs, ∀ q ∈ acc, q.1 ≠ p.1) → (hs.map Prod.fst).Nodup →
    hs.foldl (fun a p => if lowerStr p.1 ∈ skipHeaders then a else objSet a p.1 p.2) acc =
      acc ++ hs.filter (fun p => decide (lowerStr p.1 ∉ skipHeaders)) := by
  induction hs with
  | nil => intro acc _ _; simp
  | cons x t ih =>
    intro acc hacc hnd
    rw [List.map_cons, List.nodup_cons] at hnd
    obtain ⟨hx1, hnd2⟩ := hnd
    rw [List.foldl_cons]
    by_cases hx : lowerStr x.1 ∈ skipHeaders
    · rw [if_pos hx,
        ih acc (fun p hp q hq => hacc p (List.mem_cons_of_mem _ hp) q hq) hnd2,
        List.filter_cons]
      simp [hx]
    · rw [if_neg hx]
      have hobj : objSet acc x.1 x.2 = acc ++ [x] := by
        have := objSet_append acc x.1 x.2 (fun q hq => hacc x (List.mem_cons_self _ _) q hq)
        simpa using this
      rw [hobj, ih (acc ++ [x]) ?_ hnd2, List.filter_cons]
      · simp [hx]
      · intro p hp q hq
        rcases List.mem_append.mp hq with h1 | h2
        · exact hacc p (List.mem_cons_of_mem _ hp) q h1
        · have hqx : q = x := by simpa using h2
          subst hqx
          intro he
          exact hx1 (by rw [he]; exact List.mem_map_of_mem _ hp)

/-- Under distinct inbound names, getForwardHeaders is the filter through the
denylist. -/
lemma getForwardHeaders_eq_filter (hs : List (String × String))
    (hnd : (hs.map Prod.fst).Nodup) :
    getForwardHeaders hs = hs.filter (fun p => decide (lowerStr p.1 ∉ skipHeaders)) := by
  simpa [getForwardHeaders] using getForwardHeaders_go hs [] (by simp) hnd

/-! Claim theorems. -/

/-- C1: for every inbound request with method other than OPTIONS, the
outbound URL is the resolved origin, then /api/v1/, then the inbound path
segments joined by slashes (an absent or empty segment list yields the bare
/api/v1/ root), and the outbound query parameters are exactly the inbound
ones, keeping every duplicate key and the inbound order. -/
theorem c1_outbound_url_and_query (origin : String) (req : InboundRequest)
    (outBody : Option (List Nat)) (_hm : req.method ≠ "OPTIONS") :
    (buildOutbound origin req outBody).url =
      origin ++ "/api/v1/" ++ String.intercalate "/" (req.pathSegments.getD []) ∧
    (buildOutbound origin req outBody).query = req.query := by
  constructor
  · show origin ++ "/api/v1/" ++ joinedPath req = _
    congr 1
    cases h : req.pathSegments with
    | none =>
      simp only [joinedPath, h, Option.getD_none]
      rfl
    | some segs => simp [joinedPath, h, jsOrStr_empty]
  · show req.query.foldl (fun acc p => acc ++ [p]) [] = req.query
    simpa using foldl_push req.query []

/-- C1 witness at a concrete request with two path segments and a repeated
query key. -/
theorem c1_outbound_url_and_query_witness :
    ("POST" : String) ≠ "OPTIONS" ∧
    ((buildOutbound "http://localhost:8000"
        { method := "POST", pathSegments := some ["texts", "42"]
          query := [("tag", "a"), ("tag", "b"), ("verbose", "1")]
          headers := [], body := none } (some [1, 2])).url =
      "http://localhost:8000" ++ "/api/v1/" ++
        String.intercalate "/" ((some ["texts", "42"]).getD []) ∧
    (buildOutbound "http://localhost:8000"
        { method := "POST", pathSegments := some ["texts", "42"]
          query := [("tag", "a"), ("tag", "b"), ("verbose", "1")]
          headers := [], body := none } (some [1, 2])).query =
      [("tag", "a"), ("tag", "b"), ("verbose", "1")]) :=
  ⟨by decide, c1_outbound_url_and_query "http://localhost:8000" _ (some [1, 2]) (by decide)⟩

/-- C2: over any inbound header listing with distinct names (as the Headers
iteration guarantees), no outbound header name is in the denylist host,
connection, keep-alive, transfer-encoding, upgrade, content-length compared
case-insensitively, and every inbound pair whose name is outside the denylist
appears unchanged among the outbound headers. -/
theorem c2_header_filtering (hs : List (String × String))
    (hnd : (hs.map Prod.fst).Nodup) :
    (∀ p ∈ getForwardHeaders hs, ∀ s ∈ skipHeaders, lowerStr p.1 ≠ s) ∧
    (∀ p ∈ hs, lowerStr p.1 ∉ skipHeaders → p ∈ getForwardHeaders hs) := by
  rw [getForwardHeaders_eq_filter hs hnd]
  constructor
  · intro p hp s hs1 he
    rcases List.mem_filter.mp hp with ⟨_, hdec⟩
    rw [decide_eq_true_eq] at hdec
    exact hdec (he ▸ hs1)
  · intro p hp hout
    exact List.mem_filter.mpr ⟨hp, by simpa using hout⟩

/-- C2 witness at a concrete header listing holding denylisted and ordinary
names. -/
theorem c2_header_filtering_witness :
    (([("host", "ui.example"), ("authorization", "Bearer tok"),
       ("Content-Length", "12"), ("x-custom", "v")].map Prod.fst).Nodup) ∧
    ((∀ p ∈ getForwardHeaders
        [("host", "ui.example"), ("authorization", "Bearer tok"),
         ("Content-Length", "12"), ("x-custom", "v")],
        ∀ s ∈ skipHeaders, lowerStr p.1 ≠ s) ∧
     (∀ p ∈ [("host", "ui.example"), ("authorization", "Bearer tok"),
             ("Content-Length", "12"), ("x-custom", "v")],
        lowerStr p.1 ∉ skipHeaders →
        p ∈ getForwardHeaders
          [("host", "ui.example"), ("authorization", "Bearer tok"),
           ("Content-Length", "12"), ("x-custom", "v")])) :=
  ⟨by decide, c2_header_filtering _ (by decide)⟩

/-- C3: whenever the outbound fetch throws, the handler returns status 502
with a JSON body of exactly three fields: error is the literal Backend
connection failed, message is the description of the thrown failure, and
backend_url is the resolved origin itself, never the full outbound URL. -/
theorem c3_transport_failure_502 (origin : String)
    (fetchBackend : OutboundRequest → Except Thrown BackendResponse)
    (readResponseBody : BackendResponse → Except Thrown (List Nat))
    (req : InboundRequest) (outBody : Option (List Nat)) (t : Thrown)
    (hbody : readOutBody req = .ok outBody)
    (hfail : fetchBackend (buildOutbound origin req outBody) = .error t) :
    handler origin fetchBackend readResponseBody req =
      { status := 502, statusText := ""
        headers := [("Content-Type", "application/json")]
        body := .json502 "Backend connection failed" (thrownMessage t) origin } := by
  simp [handler, hbody, hfail, errorResponse]

/-- C3 witness: a GET request relayed to a refusing backend yields the
502 envelope naming the origin. -/
theorem c3_transport_failure_502_witness :
    readOutBody sampleGetRequest = .ok none ∧
    failingFetch (buildOutbound "http://localhost:8000" sampleGetRequest none) =
      .error (.jsError "connect ECONNREFUSED") ∧
    handler "http://localhost:8000" failingFetch (okRead []) sampleGetRequest =
      { status := 502, statusText := ""
        headers := [("Content-Type", "application/json")]
        body := .json502 "Backend connection failed"
          (thrownMessage (.jsError "connect ECONNREFUSED")) "http://localhost:8000" } :=
  ⟨rfl, rfl,
    c3_transport_failure_502 "http://localhost:8000" failingFetch (okRead [])
      sampleGetRequest none (.jsError "connect ECONNREFUSED") rfl rfl⟩

/-- C4 counterexample: the claim says Content-Type defaults to
application/json only if the backend omitted it, but a backend response that
does carry a Content-Type header with an empty value is also replaced by the
default, because the JavaScript || treats the empty string as falsy. -/
theorem c4_content_type_counterexample :
    headersGet [("Content-Type", "")] "Content-Type" = some "" ∧
    (handler "http://localhost:8000"
        (okFetch { status := 200, statusText := "OK", headers := [("Content-Type", "")] })
        (okRead [49]) samplePostRequest).headers =
      [("Content-Type", "application/json"), ("Cache-Control", "no-store"),
       ("Access-Control-Allow-Origin", "*"),
       ("Access-Control-Allow-Methods", "GET, POST, PUT, DELETE, OPTIONS"),
       ("Access-Control-Allow-Headers", "Content-Type, Authorization")] ∧
    ("application/json" : String) ≠ "" := by
  refine ⟨rfl, by decide, by decide⟩

/-- C4 as amended: on a successful relay the response carries the backend's
exact status code and status text, the backend body bytes, and exactly five
headers: Content-Type copied from the backend unless absent or empty (then
application/json), Cache-Control copied unless absent or empty (then
no-store), and the three fixed CORS headers; no other backend header is
relayed. -/
theorem c4_success_relay (origin : String)
    (fetchBackend : OutboundRequest → Except Thrown BackendResponse)
    (readResponseBody : BackendResponse → Except Thrown (List Nat))
    (req : InboundRequest) (outBody : Option (List Nat))
    (b : BackendResponse) (bs : List Nat)
    (h1 : readOutBody req = .ok outBody)
    (h2 : fetchBackend (buildOutbound origin req outBody) = .ok b)
    (h3 : readResponseBody b = .ok bs) :
    handler origin fetchBackend readResponseBody req =
      { status := b.status, statusText := b.statusText
        headers :=
          [ ("Content-Type",
             match headersGet b.headers "Content-Type" with
             | none => "application/json"
             | some v => if v = "" then "application/json" else v)
          , ("Cache-Control",
             match headersGet b.headers "Cache-Control" with
             | none => "no-store"
             | some v => if v = "" then "no-store" else v)
          , ("Access-Control-Allow-Origin", "*")
          , ("Access-Control-Allow-Methods", "GET, POST, PUT, DELETE, OPTIONS")
          , ("Access-Control-Allow-Headers", "Content-Type, Authorization") ]
        body := .bytes bs } := by
  have hj : ∀ (o : Option String) (d : String),
      jsOr o d = match o with | none => d | some v => if v = "" then d else v := by
    intro o d
    cases o <;> rfl
  simp only [handler, h1, h2, h3, relayedHeaders, hj]

/-- C4 witness: the round trip of the spec, a backend answering 201 with a
JSON content type is relayed exactly. -/
theorem c4_success_relay_witness :
    readOutBody samplePostRequest = .ok (some [104, 105]) ∧
    okFetch { status := 201, statusText := "Created"
              headers := [("Content-Type", "application/json")] }
        (buildOutbound "http://localhost:8000" samplePostRequest (some [104, 105])) =
      .ok { status := 201, statusText := "Created"
            headers := [("Content-Type", "application/json")] } ∧
    okRead [104, 105]
        { status := 201, statusText := "Created"
          headers := [("Content-Type", "application/json")] } = .ok [104, 105] ∧
    handler "http://localhost:8000"
        (okFetch { status := 201, statusText := "Created"
                   headers := [("Content-Type", "application/json")] })
        (okRead [104, 105]) samplePostRequest =
      { status := 201, statusText := "Created"
        headers :=
          [ ("Content-Type",
             match headersGet [("Content-Type", "application/json")] "Content-Type" with
             | none => "application/json"
             | some v => if v = "" then "application/json" else v)
          , ("Cache-Control",
             match headersGet [("Content-Type", "application/json")] "Cache-Control" with
             | none => "no-store"
             | some v => if v = "" then "no-store" else v)
          , ("Access-Control-Allow-Origin", "*")
          , ("Access-Control-Allow-Methods", "GET, POST, PUT, DELETE, OPTIONS")
          , ("Access-Control-Allow-Headers", "Content-Type, Authorization") ]
        body := .bytes [104, 105] } :=
  ⟨rfl, rfl, rfl,
    c4_success_relay "http://localhost:8000" _ _ samplePostRequest (some [104, 105])
      _ _ rfl rfl rfl⟩

/-- C5: an OPTIONS request on any path is answered directly with status 204,
an empty body, the three CORS headers with PATCH added to the allowed
methods, and Access-Control-Max-Age 86400; the right-hand side is a constant
independent of both backend oracles, so no outbound call is made. -/
theorem c5_preflight (origin : String)
    (fetchBackend : OutboundRequest → Except Thrown BackendResponse)
    (readResponseBody : BackendResponse → Except Thrown (List Nat))
    (req : InboundRequest) (hm : req.method = "OPTIONS") :
    route origin fetchBackend readResponseBody req = some
      { status := 204, statusText := ""
        headers :=
          [ ("Access-Control-Allow-Origin", "*")
          , ("Access-Control-Allow-Methods", "GET, POST, PUT, DELETE, PATCH, OPTIONS")
          , ("Access-Control-Allow-Headers", "Content-Type, Authorization")
          , ("Access-Control-Max-Age", "86400") ]
        body := .empty } := by
  simp [route, hm, optionsResponse]

/-- C5 witness: a preflight against the refusing backend oracle still gets
the constant 204 answer. -/
theorem c5_preflight_witness :
    ({ method := "OPTIONS", pathSegments := some ["upload"], query := [("x", "1")]
       headers := [("origin", "https://ui.example")], body := none } :
        InboundRequest).method = "OPTIONS" ∧
    route "http://localhost:8000" failingFetch (okRead [])
      { method := "OPTIONS", pathSegments := some ["upload"], query := [("x", "1")]
        headers := [("origin", "https://ui.example")], body := none } = some
      { status := 204, statusText := ""
        headers :=
          [ ("Access-Control-Allow-Origin", "*")
          , ("Access-Control-Allow-Methods", "GET, POST, PUT, DELETE, PATCH, OPTIONS")
          , ("Access-Control-Allow-Headers", "Content-Type, Authorization")
          , ("Access-Control-Max-Age", "86400") ]
        body := .empty } :=
  ⟨rfl, c5_preflight "http://localhost:8000" failingFetch (okRead []) _ rfl⟩

/-- C6: the body step forwards no body for GET and HEAD even when a stream is
present; for any other method an absent stream forwards no body, a non-empty
payload is forwarded as the exact byte list, and a zero-length payload
forwards no body at all. -/
theorem c6_body_forwarding (req : InboundRequest) :
    ((req.method = "GET" ∨ req.method = "HEAD") → readOutBody req = .ok none) ∧
    (req.method ≠ "GET" → req.method ≠ "HEAD" →
      ((req.body = none → readOutBody req = .ok none) ∧
       (∀ bs, req.body = some (.ok bs) → bs ≠ [] → readOutBody req = .ok (some bs)) ∧
       (req.body = some (.ok []) → readOutBody req = .ok none))) := by
  constructor
  · intro h
    unfold readOutBody
    rw [if_pos h]
  · intro h1 h2
    have hcond : ¬ (req.method = "GET" ∨ req.method = "HEAD") := by
      rintro (h | h)
      · exact h1 h
      · exact h2 h
    refine ⟨?_, ?_, ?_⟩
    · intro hb
      unfold readOutBody
      rw [if_neg hcond, hb]
    · intro bs hb hne
      have hpos : 0 < bs.length := List.length_pos.mpr hne
      unfold readOutBody
      rw [if_neg hcond, hb]
      simp [hpos]
    · intro hb
      unfold readOutBody
      rw [if_neg hcond, hb]
      simp

/-- C7 counterexample: the claim says the private value wins whenever it is
set, but a private variable set to the empty string is falsy under the
JavaScript || chain, so the public value is used instead. -/
theorem c7_resolution_counterexample :
    resolveBackendUrl (some "") (some "http://public.example") = "http://public.example" ∧
    ("http://public.example" : String) ≠ "" :=
  ⟨rfl, by decide⟩

/-- C7 as amended: the resolved origin is the private value when it is set to
a non-empty string, otherwise the public value when that is set to a
non-empty string, otherwise the fixed default http://localhost:8000; a value
set to the empty string counts as unset. The once-per-process aspect is
structural: the origin is a module-level constant, modelled as the single
parameter every request-handling function receives. -/
theorem c7_resolution_amended :
    (∀ s pub, s ≠ "" → resolveBackendUrl (some s) pub = s) ∧
    (∀ p, p ≠ "" → resolveBackendUrl none (some p) = p) ∧
    (∀ p, p ≠ "" → resolveBackendUrl (some "") (some p) = p) ∧
    resolveBackendUrl none none = "http://localhost:8000" ∧
    resolveBackendUrl (some "") none = "http://localhost:8000" ∧
    resolveBackendUrl (some "") (some "") = "http://localhost:8000" := by
  refine ⟨?_, ?_, ?_, rfl, rfl, rfl⟩
  · intro s pub hne
    simp [resolveBackendUrl, jsOr, hne]
  · intro p hne
    simp [resolveBackendUrl, jsOr, hne]
  · intro p hne
    simp [resolveBackendUrl, jsOr, hne]

/-- C8 counterexample: the claim says the 502 envelope appears if and only if
the outbound transport call fails, but a request whose own body stream throws
while being read is answered with the envelope although the fetch oracle
never fails (it is never even reached). -/
theorem c8_envelope_counterexample :
    handler "http://localhost:8000" (okFetch sampleBackendOk) (okRead [])
        throwingBodyRequest =
      { status := 502, statusText := ""
        headers := [("Content-Type", "application/json")]
        body := .json502 "Backend connection failed" "body stream aborted"
          "http://localhost:8000" } ∧
    okFetch sampleBackendOk
        (buildOutbound "http://localhost:8000" throwingBodyRequest none) =
      .ok sampleBackendOk :=
  ⟨rfl, rfl⟩

/-- C8 as amended: for a non-OPTIONS request the handler returns the 502
envelope exactly when some awaited step of the try block throws: reading the
inbound body stream, the outbound fetch, or reading the backend response
body. The gateway itself never validates or rejects client input, and there
is no other error path: when all three steps succeed the backend response is
relayed unconditionally. -/
theorem c8_error_path_amended (origin : String)
    (fetchBackend : OutboundRequest → Except Thrown BackendResponse)
    (readResponseBody : BackendResponse → Except Thrown (List Nat))
    (req : InboundRequest) :
    (∃ m u, (handler origin fetchBackend readResponseBody req).body =
        ResponseBody.json502 "Backend connection failed" m u) ↔
      ((∃ t, readOutBody req = .error t) ∨
       (∃ ob, readOutBody req = .ok ob ∧
         ((∃ t, fetchBackend (buildOutbound origin req ob) = .error t) ∨
          (∃ b, fetchBackend (buildOutbound origin req ob) = .ok b ∧
            ∃ t, readResponseBody b = .error t)))) := by
  cases hb : readOutBody req with
  | error t =>
    apply iff_of_true
    · exact ⟨thrownMessage t, origin, by simp [handler, hb, errorResponse]⟩
    · exact Or.inl ⟨t, rfl⟩
  | ok ob =>
    cases hf : fetchBackend (buildOutbound origin req ob) with
    | error t =>
      apply iff_of_true
      · exact ⟨thrownMessage t, origin, by simp [handler, hb, hf, errorResponse]⟩
      · exact Or.inr ⟨ob, rfl, Or.inl ⟨t, hf⟩⟩
    | ok b =>
      cases hr : readResponseBody b with
      | error t =>
        apply iff_of_true
        · exact ⟨thrownMessage t, origin, by simp [handler, hb, hf, hr, errorResponse]⟩
        · exact Or.inr ⟨ob, rfl, Or.inr ⟨b, hf, t, hr⟩⟩
      | ok bs =>
        apply iff_of_false
        · rintro ⟨m, u, habs⟩
          simp [handler, hb, hf, hr] at habs
        · rintro (⟨t, habs⟩ | ⟨ob2, hob2, habs⟩)
          · simp at habs
          · injection hob2 with hob2
            subst hob2
            rcases habs with ⟨t, habs⟩ | ⟨b2, hb2, t, habs⟩
            · simp [hf] at habs
            · rw [hf] at hb2
              injection hb2 with hb2
              subst hb2
              simp [hr] at habs

/-- C9: every method of the inbound surface GET, HEAD, POST, PUT, PATCH,
DELETE, OPTIONS is accepted by the route, and each non-OPTIONS method goes to
the shared handler, whose outbound request keeps the inbound method string
unchanged; in particular HEAD is served (through the GET export). -/
theorem c9_methods_served (origin : String)
    (fetchBackend : OutboundRequest → Except Thrown BackendResponse)
    (readResponseBody : BackendResponse → Except Thrown (List Nat))
    (req : InboundRequest) (m : String)
    (hmem : m ∈ ["GET", "HEAD", "POST", "PUT", "PATCH", "DELETE", "OPTIONS"])
    (hreq : req.method = m) :
    (route origin fetchBackend readResponseBody req).isSome ∧
    (m ≠ "OPTIONS" →
      route origin fetchBackend readResponseBody req =
        some (handler origin fetchBackend readResponseBody req) ∧
      ∀ ob, (buildOutbound origin req ob).method = m) := by
  simp only [List.mem_cons, List.not_mem_nil, or_false] at hmem
  rcases hmem with rfl | rfl | rfl | rfl | rfl | rfl | rfl <;>
    refine ⟨by simp [route, hreq, exportedMethods], fun hne => ?_⟩
  · exact ⟨by simp [route, hreq, exportedMethods], fun ob => by simp [buildOutbound, hreq]⟩
  · exact ⟨by simp [route, hreq, exportedMethods], fun ob => by simp [buildOutbound, hreq]⟩
  · exact ⟨by simp [route, hreq, exportedMethods], fun ob => by simp [buildOutbound, hreq]⟩
  · exact ⟨by simp [route, hreq, exportedMethods], fun ob => by simp [buildOutbound, hreq]⟩
  · exact ⟨by simp [route, hreq, exportedMethods], fun ob => by simp [buildOutbound, hreq]⟩
  · exact ⟨by simp [route, hreq, exportedMethods], fun ob => by simp [buildOutbound, hreq]⟩
  · exact absurd rfl hne

/-- C9 witness: a HEAD request is accepted, dispatched to the shared handler,
and forwarded with method HEAD. -/
theorem c9_methods_served_witness :
    ("HEAD" ∈ ["GET", "HEAD", "POST", "PUT", "PATCH", "DELETE", "OPTIONS"]) ∧
    sampleHeadRequest.method = "HEAD" ∧
    ((route "http://localhost:8000" failingFetch (okRead []) sampleHeadRequest).isSome ∧
     ("HEAD" ≠ "OPTIONS" →
       route "http://localhost:8000" failingFetch (okRead []) sampleHeadRequest =
         some (handler "http://localhost:8000" failingFetch (okRead []) sampleHeadRequest) ∧
       ∀ ob, (buildOutbound "http://localhost:8000" sampleHeadRequest ob).method = "HEAD")) :=
  ⟨by decide, rfl,
    c9_methods_served "http://localhost:8000" failingFetch (okRead [])
      sampleHeadRequest "HEAD" (by decide) rfl⟩

/-- C10: the handler is a total function; whenever any awaited step of the
try block throws a value t (reading the inbound body, the outbound fetch, or
reading the backend response body), the result is the same 502 envelope,
whose message is the message of t when t is an Error and the literal Unknown
error otherwise. URL construction is modelled as pure string building, so it
cannot throw in the model. -/
theorem c10_catch_yields_envelope (origin : String)
    (fetchBackend : OutboundRequest → Except Thrown BackendResponse)
    (readResponseBody : BackendResponse → Except Thrown (List Nat))
    (req : InboundRequest) (t : Thrown)
    (hthrow :
      readOutBody req = .error t ∨
      (∃ ob, readOutBody req = .ok ob ∧
        fetchBackend (buildOutbound origin req ob) = .error t) ∨
      (∃ ob b, readOutBody req = .ok ob ∧
        fetchBackend (buildOutbound origin req ob) = .ok b ∧
        readResponseBody b = .error t)) :
    handler origin fetchBackend readResponseBody req =
      { status := 502, statusText := ""
        headers := [("Content-Type", "application/json")]
        body := .json502 "Backend connection failed" (thrownMessage t) origin } ∧
    (∀ m, thrownMessage (Thrown.jsError m) = m) ∧
    thrownMessage Thrown.nonError = "Unknown error" := by
  refine ⟨?_, fun m => rfl, rfl⟩
  rcases hthrow with h | ⟨ob, h1, h2⟩ | ⟨ob, b, h1, h2, h3⟩
  · simp [handler, h, errorResponse]
  · simp [handler, h1, h2, errorResponse]
  · simp [handler, h1, h2, h3, errorResponse]

/-- C10 witness: a fetch oracle throwing a non-Error value yields the
envelope with the fixed Unknown error message. -/
theorem c10_catch_yields_envelope_witness :
    (readOutBody sampleGetRequest = .error Thrown.nonError ∨
     (∃ ob, readOutBody sampleGetRequest = .ok ob ∧
        throwingNonErrorFetch
          (buildOutbound "http://localhost:8000" sampleGetRequest ob) =
          .error Thrown.nonError) ∨
     (∃ ob b, readOutBody sampleGetRequest = .ok ob ∧
        throwingNonErrorFetch
          (buildOutbound "http://localhost:8000" sampleGetRequest ob) = .ok b ∧
        okRead [] b = .error Thrown.nonError)) ∧
    (handler "http://localhost:8000" throwingNonErrorFetch (okRead [])
        sampleGetRequest =
      { status := 502, statusText := ""
        headers := [("Content-Type", "application/json")]
        body := .json502 "Backend connection failed"
          (thrownMessage Thrown.nonError) "http://localhost:8000" } ∧
     (∀ m, thrownMessage (Thrown.jsError m) = m) ∧
     thrownMessage Thrown.nonError = "Unknown error") :=
  ⟨Or.inr (Or.inl ⟨none, rfl, rfl⟩),
    c10_catch_yields_envelope "http://localhost:8000" throwingNonErrorFetch
      (okRead []) sampleGetRequest Thrown.nonError
      (Or.inr (Or.inl ⟨none, rfl, rfl⟩))⟩

end GatewayModel
